import Mathlib

/-!
Shallow embedding of the geoPulse geofence evaluation engine
(src/app/internal/services/geolocation_service.py and the repository layer
it drives), together with theorems settling the specification claims.

Modelling conventions:
  * Python Decimal values (latitude, longitude, radius, bounds) are exact
    decimal numbers; they are modelled as rationals.
  * The circle containment path converts to floats and uses transcendental
    functions; it is modelled over the real numbers.
  * Timestamps are abstract (natural numbers); datetime.now(timezone.utc)
    is modelled as a single distinguished value supplied by the context.
  * Python exceptions are modelled with Except: a TypeError from float(None)
    or a None comparison, and the ValueError raised by the shapely Polygon
    constructor on fewer than 3 coordinate tuples.
  * Python truthiness tests on optional strings / lists treat None and the
    empty value as false.
-/

namespace GeoPulse

/-- Python exceptions that the modelled code paths can raise. -/
inductive PyErr where
  | typeError
  | valueError
  deriving DecidableEq, Repr

/-- GeofenceType enum (src/app/pkg/db/models/geofence.py). -/
inductive GeofenceType where
  | circle
  | polygon
  | rectangle
  deriving DecidableEq, Repr

/-- GeofenceStatus enum (src/app/pkg/db/models/geofence.py). -/
inductive GeofenceStatus where
  | active
  | inactive
  | archived
  deriving DecidableEq, Repr

/-- The .value string of a GeofenceStatus member, as compared by
check_geofences (geofence.status.value != "active"). -/
def GeofenceStatus.value : GeofenceStatus → String
  | .active => "active"
  | .inactive => "inactive"
  | .archived => "archived"

/-- Geofence row (src/app/pkg/db/models/geofence.py). Shape parameters are
nullable columns, hence Option. Polygon coordinates are a JSON list of
[lat, lon] pairs. -/
structure Geofence where
  id : ℕ
  name : String
  geofence_type : GeofenceType
  center_latitude : Option ℚ
  center_longitude : Option ℚ
  radius_meters : Option ℚ
  polygon_coordinates : Option (List (ℚ × ℚ))
  min_latitude : Option ℚ
  max_latitude : Option ℚ
  min_longitude : Option ℚ
  max_longitude : Option ℚ
  status : GeofenceStatus
  notify_on_enter : Bool
  notify_on_exit : Bool
  notification_message : Option String
  enable_sound : Bool
  enable_push : Bool
  enable_telegram : Bool
  deriving DecidableEq, Repr

/-- Device row (src/app/pkg/db/models/device.py), restricted to the fields
the geolocation service reads. -/
structure Device where
  id : ℕ
  device_id : String
  fcm_token : Option String
  telegram_chat_id : Option String
  deriving DecidableEq, Repr

/-- DeviceGeofence row (src/app/pkg/db/models/geofence.py): the per
(device, geofence) containment state. -/
structure DeviceGeofence where
  device_id : ℕ
  geofence_id : ℕ
  is_inside : Bool
  last_entered_at : Option ℕ
  last_exited_at : Option ℕ
  deriving DecidableEq, Repr

/-- Python truthiness of an optional string (None and "" are falsy). -/
def truthyStr : Option String → Bool
  | none => false
  | some s => !(s == "")

/-- Python x or y for an optional string x: returns y when x is None or
empty (geofence.notification_message or generated default). -/
def pyOrStr (x : Option String) (dflt : String) : String :=
  match x with
  | none => dflt
  | some s => if s == "" then dflt else s

/-! ## Geometry module -/

/-- math.radians: degrees to radians. -/
noncomputable def radians (x : ℝ) : ℝ := x * Real.pi / 180

/-- haversine_distance (geolocation_service.py lines 26-40): great-circle
distance in meters between two (lat, lon) points, Earth radius 6371000 m.
The Decimal inputs are converted to floats at the boundary; the float
computation is modelled over the reals. -/
noncomputable def haversine_distance (lat1 lon1 lat2 lon2 : ℚ) : ℝ :=
  let R : ℝ := 6371000
  let lat1_rad := radians (lat1 : ℝ)
  let lat2_rad := radians (lat2 : ℝ)
  let delta_lat := radians ((lat2 - lat1 : ℚ) : ℝ)
  let delta_lon := radians ((lon2 - lon1 : ℚ) : ℝ)
  let a := Real.sin (delta_lat / 2) ^ 2 +
    Real.cos lat1_rad * Real.cos lat2_rad * Real.sin (delta_lon / 2) ^ 2
  let c := 2 * Real.arcsin (Real.sqrt a)
  R * c

open Classical in
/-- point_in_circle (geolocation_service.py lines 50-55): distance from the
point to the center, compared inclusively against the radius. -/
noncomputable def point_in_circle (lat lon center_lat center_lon radius_meters : ℚ) : Bool :=
  decide (haversine_distance lat lon center_lat center_lon ≤ (radius_meters : ℝ))

/-- Cross product orientation of b - a against c - a, for planar points. -/
def cross (a b c : ℚ × ℚ) : ℚ :=
  (b.1 - a.1) * (c.2 - a.2) - (b.2 - a.2) * (c.1 - a.1)

/-- Membership of point p in the closed segment from a to b. -/
def onSegment (a b p : ℚ × ℚ) : Bool :=
  decide (cross a b p = 0 ∧
    min a.1 b.1 ≤ p.1 ∧ p.1 ≤ max a.1 b.1 ∧
    min a.2 b.2 ≤ p.2 ∧ p.2 ≤ max a.2 b.2)

/-- Edges of the closed ring on the vertex list vs (each vertex paired with
its cyclic successor). -/
def polygonEdges (vs : List (ℚ × ℚ)) : List ((ℚ × ℚ) × (ℚ × ℚ)) :=
  vs.zip (vs.rotate 1)

/-- Point p lies on the boundary of the polygon with vertex list vs. -/
def onBoundary (vs : List (ℚ × ℚ)) (p : ℚ × ℚ) : Bool :=
  (polygonEdges vs).any fun e => onSegment e.1 e.2 p

/-- Even-odd ray-crossing parity for p against the ring vs: counts edges
straddling the horizontal line through p whose crossing point is strictly
to the right of p. -/
def crossingParity (vs : List (ℚ × ℚ)) (p : ℚ × ℚ) : Bool :=
  (polygonEdges vs).foldl
    (fun acc e =>
      let a := e.1
      let b := e.2
      if ((decide (p.2 < a.2)) != (decide (p.2 < b.2))) &&
          decide (p.1 < a.1 + (b.1 - a.1) * (p.2 - a.2) / (b.2 - a.2))
      then !acc else acc)
    false

/-- Model of shapely Polygon.contains applied to a Point: true exactly when
the point belongs to the interior of the polygon, which excludes the
boundary (shapely containment is strict). Membership in the interior is
modelled as even-odd ray-crossing parity away from the boundary. -/
def shapelyContains (vs : List (ℚ × ℚ)) (p : ℚ × ℚ) : Bool :=
  !(onBoundary vs p) && crossingParity vs p

/-- point_in_polygon (geolocation_service.py lines 43-47): builds a shapely
Polygon over the (lon, lat)-swapped coordinates and tests containment of
Point(lon, lat). The shapely Polygon constructor raises ValueError when
given 1 or 2 coordinate tuples (a linear ring needs at least 3); an empty
list yields an empty polygon containing nothing. -/
def point_in_polygon (lat lon : ℚ) (polygon_coords : List (ℚ × ℚ)) : Except PyErr Bool :=
  if polygon_coords.length = 0 then .ok false
  else if polygon_coords.length < 3 then .error .valueError
  else .ok (shapelyContains (polygon_coords.map fun c => (c.2, c.1)) (lon, lat))

/-- point_in_rectangle (geolocation_service.py lines 58-70): inclusive
chained comparisons min_lat <= lat <= max_lat and min_lon <= lon <= max_lon. -/
def point_in_rectangle (lat lon min_lat max_lat min_lon max_lon : ℚ) : Bool :=
  decide (min_lat ≤ lat ∧ lat ≤ max_lat ∧ min_lon ≤ lon ∧ lon ≤ max_lon)

/-! ## Notification intents and integration events -/

/-- NotificationType members used by the service. -/
inductive NotificationChannel where
  | push
  | telegram
  deriving DecidableEq, Repr

/-- NotificationPriority enum (src/app/pkg/db/models/notification.py). -/
inductive NotificationPriority where
  | low
  | normal
  | high
  | urgent
  deriving DecidableEq, Repr

/-- NotificationCreate record staged by send_geofence_notification plus the
queued dispatch task: one notification intent. -/
structure NotificationIntent where
  device_id : String
  notification_type : NotificationChannel
  title : String
  message : String
  priority : NotificationPriority
  enable_sound : Bool
  geofence_id : ℕ
  event_type : String
  latitude : ℚ
  longitude : ℚ
  deriving DecidableEq, Repr

/-- Kafka geofence event published by check_geofences
(send_geofence_event(device.device_id, geofence.id, "enter"/"exit", coords)). -/
structure GeofenceEvent where
  device_id : String
  geofence_id : ℕ
  event_type : String
  latitude : ℚ
  longitude : ℚ
  deriving DecidableEq, Repr

/-! ## Repository layer -/

/-- GeofenceRepository.read_by_id (geofence_repository.py lines 46-51). -/
def read_by_id (geofences : List Geofence) (geofence_id : ℕ) : Option Geofence :=
  geofences.find? fun g => g.id == geofence_id

/-- Field update applied by DeviceGeofenceRepository.update_state to a
matching row: is_inside is always written; last_entered_at and
last_exited_at are written only when the corresponding argument is truthy
(not None). -/
def applyStateUpdate (r : DeviceGeofence) (is_inside : Bool)
    (entered_at exited_at : Option ℕ) : DeviceGeofence :=
  { r with
    is_inside := is_inside
    last_entered_at := match entered_at with
      | some t => some t
      | none => r.last_entered_at
    last_exited_at := match exited_at with
      | some t => some t
      | none => r.last_exited_at }

/-- DeviceGeofenceRepository.update_state (geofence_repository.py lines
110-140): get_or_create the (device_id, geofence_id) row (created with
is_inside = false), then update it in place. -/
def update_state (rows : List DeviceGeofence) (device_id geofence_id : ℕ)
    (is_inside : Bool) (entered_at exited_at : Option ℕ) : List DeviceGeofence :=
  let rows0 :=
    if rows.any (fun r => r.device_id == device_id && r.geofence_id == geofence_id)
    then rows
    else rows ++ [⟨device_id, geofence_id, false, none, none⟩]
  rows0.map fun r =>
    if r.device_id == device_id && r.geofence_id == geofence_id
    then applyStateUpdate r is_inside entered_at exited_at
    else r

/-! ## Evaluation orchestrator -/

/-- Per-call context of check_geofences: the device row resolved by
read_by_id(device_db_id), the geofence table, the coordinate, and the value
produced by datetime.now(timezone.utc) during the call. -/
structure EvalCtx where
  device_db_id : ℕ
  device : Option Device
  geofences : List Geofence
  latitude : ℚ
  longitude : ℚ
  now : ℕ
  deriving Repr

/-- Mutable outcome of an evaluation: the device_geofences rows after the
staged update_state calls, the staged notification intents, and the
published integration events. -/
structure EvalState where
  rows : List DeviceGeofence
  notifs : List NotificationIntent
  events : List GeofenceEvent
  deriving DecidableEq, Repr

/-- send_geofence_notification (geolocation_service.py lines 251-336):
re-reads the device (returns nothing when absent), renders title and
message, and creates a Push intent when enable_push and the device has a
truthy fcm_token, then a Telegram intent when enable_telegram and the
device has a truthy telegram_chat_id. -/
def send_geofence_notification (device : Option Device) (geofence : Geofence)
    (event_type : String) (latitude longitude : ℚ) : List NotificationIntent :=
  match device with
  | none => []
  | some d =>
    let title := "Geofence: " ++ geofence.name
    let message := pyOrStr geofence.notification_message
      ("Device " ++ (if event_type == "geofence_enter" then "entered" else "exited") ++
        " geofence " ++ geofence.name)
    (if geofence.enable_push && truthyStr d.fcm_token then
      [{ device_id := d.device_id
         notification_type := .push
         title := title
         message := message
         priority := .high
         enable_sound := geofence.enable_sound
         geofence_id := geofence.id
         event_type := event_type
         latitude := latitude
         longitude := longitude }]
    else []) ++
    (if geofence.enable_telegram && truthyStr d.telegram_chat_id then
      [{ device_id := d.device_id
         notification_type := .telegram
         title := title
         message := message
         priority := .high
         enable_sound := geofence.enable_sound
         geofence_id := geofence.id
         event_type := event_type
         latitude := latitude
         longitude := longitude }]
    else [])

/-- Containment computation of the loop body (geolocation_service.py lines
159-180). is_inside starts False; the branch for the declared kind runs its
geometry test. A circle with a missing center or radius reaches float(None)
inside haversine_distance, raising TypeError; a rectangle with a missing
bound compares Decimal against None, raising TypeError; a polygon whose
polygon_coordinates is None or the empty list is falsy, so the test is
skipped and is_inside stays False. -/
noncomputable def computeIsInside (g : Geofence) (lat lon : ℚ) : Except PyErr Bool :=
  match g.geofence_type with
  | .circle =>
    match g.center_latitude, g.center_longitude, g.radius_meters with
    | some clat, some clon, some r => .ok (point_in_circle lat lon clat clon r)
    | _, _, _ => .error .typeError
  | .polygon =>
    match g.polygon_coordinates with
    | some coords => if coords.isEmpty then .ok false else point_in_polygon lat lon coords
    | none => .ok false
  | .rectangle =>
    match g.min_latitude, g.max_latitude, g.min_longitude, g.max_longitude with
    | some a, some b, some c, some d => .ok (point_in_rectangle lat lon a b c d)
    | _, _, _, _ => .error .typeError

/-- One iteration of the check_geofences loop (geolocation_service.py lines
154-249) over the device_geofence snapshot row dg. A missing or non-active
geofence is skipped; containment is computed; an unchanged state does
nothing; a transition stages an update_state call (entered_at or exited_at
set to now), builds notification intents when the matching notify flag is
set, and publishes a Kafka event. The Kafka publication sits in a
try/except block, so when the device row is None the AttributeError from
device.device_id is swallowed and no event is published. -/
noncomputable def processDeviceGeofence (ctx : EvalCtx) (st : EvalState)
    (dg : DeviceGeofence) : Except PyErr EvalState :=
  match read_by_id ctx.geofences dg.geofence_id with
  | none => .ok st
  | some geofence =>
    if geofence.status.value ≠ "active" then .ok st
    else
      match computeIsInside geofence ctx.latitude ctx.longitude with
      | .error e => .error e
      | .ok is_inside =>
        let previous_state := dg.is_inside
        if is_inside == previous_state then .ok st
        else if is_inside then
          .ok
            { rows := update_state st.rows ctx.device_db_id geofence.id true (some ctx.now) none
              notifs := st.notifs ++
                (if geofence.notify_on_enter then
                  send_geofence_notification ctx.device geofence "geofence_enter"
                    ctx.latitude ctx.longitude
                else [])
              events := st.events ++
                (match ctx.device with
                  | some d => [⟨d.device_id, geofence.id, "enter", ctx.latitude, ctx.longitude⟩]
                  | none => []) }
        else
          .ok
            { rows := update_state st.rows ctx.device_db_id geofence.id false none (some ctx.now)
              notifs := st.notifs ++
                (if geofence.notify_on_exit then
                  send_geofence_notification ctx.device geofence "geofence_exit"
                    ctx.latitude ctx.longitude
                else [])
              events := st.events ++
                (match ctx.device with
                  | some d => [⟨d.device_id, geofence.id, "exit", ctx.latitude, ctx.longitude⟩]
                  | none => []) }

/-- check_geofences (geolocation_service.py lines 148-249): fetches the
device_geofence rows once, then runs the loop body over that snapshot,
threading the database rows and accumulating intents and events. An
exception raised by any iteration propagates and aborts the call. -/
noncomputable def check_geofences (ctx : EvalCtx) (rows : List DeviceGeofence) :
    Except PyErr EvalState :=
  List.foldlM (processDeviceGeofence ctx) ⟨rows, [], []⟩ rows

/-- Transition detection as performed by the check_geofences branch
structure (lines 182-249): a change of containment is an enter when the new
value is true, an exit when it is false, and otherwise nothing happens. -/
inductive TransitionKind where
  | entered
  | exited
  | unchanged
  deriving DecidableEq, Repr

/-- Detect(previousIsInside, currentIsInside), read off the code's
branching: if is_inside != previous_state then (enter if is_inside else
exit) else nothing. -/
def detectTransition (previous current : Bool) : TransitionKind :=
  if current == previous then .unchanged
  else if current then .entered else .exited

/-! ## Location processing flow -/

/-- LocationCreate schema fields consumed by process_location. -/
structure LocationCreate where
  device_id : String
  latitude : ℚ
  longitude : ℚ
  timestamp : ℕ
  deriving DecidableEq, Repr

/-- Reverse-geocoding payload attached to a saved location. -/
structure AddressInfo where
  formatted_address : String
  city : Option String
  country : Option String
  deriving DecidableEq, Repr

/-- Location row created by LocationRepository.create, possibly enriched by
update_address. -/
structure SavedLocation where
  device_db_id : ℕ
  latitude : ℚ
  longitude : ℚ
  timestamp : ℕ
  address : Option AddressInfo
  deriving DecidableEq, Repr

/-- Kafka location event payload sent by send_location_event. -/
structure LocationEvent where
  device_id : String
  latitude : ℚ
  longitude : ℚ
  timestamp : ℕ
  deriving DecidableEq, Repr

/-- Environment of one process_location call: the repositories' contents,
the Google Maps client availability with its would-be geocoding answer, and
the value of datetime.now(timezone.utc). -/
structure ProcEnv where
  devices : List Device
  geofences : List Geofence
  device_geofences : List DeviceGeofence
  gmaps_available : Bool
  geocode_result : Option AddressInfo
  now : ℕ
  deriving Repr

/-- Observable outcome of process_location: last_seen updates, saved
locations, published location events, and the geofence evaluation outcome
(none when the device lookup failed and the method returned early). -/
structure ProcOut where
  last_seen_updates : List String
  saved_locations : List SavedLocation
  location_events : List LocationEvent
  geofence_eval : Option EvalState
  deriving DecidableEq, Repr

/-- DeviceRepository.read_by_device_id: lookup by external device_id. -/
def read_by_device_id (devices : List Device) (device_id : String) : Option Device :=
  devices.find? fun d => d.device_id == device_id

/-- DeviceRepository.read_by_id: lookup by database id. -/
def device_read_by_id (devices : List Device) (id : ℕ) : Option Device :=
  devices.find? fun d => d.id == id

/-- process_location (geolocation_service.py lines 94-146). When the device
lookup fails the method logs a warning and returns with no error and no
effect. Otherwise it updates last_seen, saves the location (address
enrichment happens when the Google Maps client exists and answers; its
failures are swallowed), publishes a Kafka location event (failures
swallowed), and finally runs check_geofences over the device's rows. -/
noncomputable def process_location (env : ProcEnv) (location_data : LocationCreate) :
    Except PyErr ProcOut :=
  match read_by_device_id env.devices location_data.device_id with
  | none => .ok ⟨[], [], [], none⟩
  | some device =>
    let location : SavedLocation :=
      { device_db_id := device.id
        latitude := location_data.latitude
        longitude := location_data.longitude
        timestamp := location_data.timestamp
        address := if env.gmaps_available then env.geocode_result else none }
    let ctx : EvalCtx :=
      { device_db_id := device.id
        device := device_read_by_id env.devices device.id
        geofences := env.geofences
        latitude := location_data.latitude
        longitude := location_data.longitude
        now := env.now }
    let rows := env.device_geofences.filter fun r => r.device_id == device.id
    match check_geofences ctx rows with
    | .error e => .error e
    | .ok st =>
      .ok { last_seen_updates := [location_data.device_id]
            saved_locations := [location]
            location_events :=
              [⟨location_data.device_id, location_data.latitude, location_data.longitude,
                location_data.timestamp⟩]
            geofence_eval := some st }

/-! ## Specification-side definitions -/

/-- Great-circle surface distance, written from the specification's own
words: haversine formula over radian angles with Earth radius 6,371,000 m.
It is kept separate from haversine_distance, which is translated from the
code, so that the two can be compared. -/
noncomputable def specGreatCircleDistance (lat1 lon1 lat2 lon2 : ℚ) : ℝ :=
  2 * 6371000 * Real.arcsin (Real.sqrt
    (Real.sin ((radians (lat2 : ℝ) - radians (lat1 : ℝ)) / 2) ^ 2 +
     Real.cos (radians (lat1 : ℝ)) * Real.cos (radians (lat2 : ℝ)) *
       Real.sin ((radians (lon2 : ℝ) - radians (lon1 : ℝ)) / 2) ^ 2))

/-! ## Concrete fixtures for witnesses and counterexamples -/

/-- Fixture for the C1 witness: one active rectangle geofence containing
the reported point, with the device initially outside. -/
def c1geofence : Geofence :=
  { id := 7
    name := "home"
    geofence_type := .rectangle
    center_latitude := none
    center_longitude := none
    radius_meters := none
    polygon_coordinates := none
    min_latitude := some 0
    max_latitude := some 10
    min_longitude := some 0
    max_longitude := some 10
    status := .active
    notify_on_enter := false
    notify_on_exit := false
    notification_message := none
    enable_sound := true
    enable_push := true
    enable_telegram := false }

def c1device : Device :=
  { id := 1, device_id := "dev-1", fcm_token := some "tok", telegram_chat_id := none }

def c1ctx : EvalCtx :=
  { device_db_id := 1
    device := some c1device
    geofences := [c1geofence]
    latitude := 5
    longitude := 5
    now := 99 }

def c1rows : List DeviceGeofence := [⟨1, 7, false, none, none⟩]

def c1st : EvalState :=
  { rows := [⟨1, 7, true, some 99, none⟩]
    notifs := []
    events := [⟨"dev-1", 7, "enter", 5, 5⟩] }

/-- Fixture for C2: an active polygon geofence whose coordinate list is
present but empty, with the device's stored state inside. -/
def c2geofence : Geofence :=
  { id := 9
    name := "zone"
    geofence_type := .polygon
    center_latitude := none
    center_longitude := none
    radius_meters := none
    polygon_coordinates := some []
    min_latitude := none
    max_latitude := none
    min_longitude := none
    max_longitude := none
    status := .active
    notify_on_enter := false
    notify_on_exit := false
    notification_message := none
    enable_sound := true
    enable_push := false
    enable_telegram := false }

/-- Fixture for C2: an active circle geofence with no center and no radius. -/
def c2circle : Geofence :=
  { c2geofence with id := 10, geofence_type := .circle, polygon_coordinates := none }

def c2device : Device :=
  { id := 2, device_id := "dev-2", fcm_token := none, telegram_chat_id := none }

def c2ctx : EvalCtx :=
  { device_db_id := 2
    device := some c2device
    geofences := [c2geofence]
    latitude := 1
    longitude := 1
    now := 50 }

def c2rows : List DeviceGeofence := [⟨2, 9, true, some 40, none⟩]

def c2st : EvalState :=
  { rows := [⟨2, 9, false, some 40, some 50⟩]
    notifs := []
    events := [⟨"dev-2", 9, "exit", 1, 1⟩] }

/-- Fixture for C3: a valid rectangle geofence followed by a malformed
polygon geofence with only two vertices. -/
def c3rect : Geofence :=
  { id := 1
    name := "G1"
    geofence_type := .rectangle
    center_latitude := none
    center_longitude := none
    radius_meters := none
    polygon_coordinates := none
    min_latitude := some 0
    max_latitude := some 10
    min_longitude := some 0
    max_longitude := some 10
    status := .active
    notify_on_enter := false
    notify_on_exit := false
    notification_message := none
    enable_sound := true
    enable_push := false
    enable_telegram := false }

def c3poly2 : Geofence :=
  { c3rect with
    id := 2
    name := "G2"
    geofence_type := .polygon
    min_latitude := none
    max_latitude := none
    min_longitude := none
    max_longitude := none
    polygon_coordinates := some [(0, 0), (1, 1)] }

def c3device : Device :=
  { id := 3, device_id := "dev-3", fcm_token := none, telegram_chat_id := none }

def c3ctx : EvalCtx :=
  { device_db_id := 3
    device := some c3device
    geofences := [c3rect, c3poly2]
    latitude := 5
    longitude := 5
    now := 60 }

/-- Device is already inside G1, so G1's iteration is a no-op; G2's
iteration raises. -/
def c3rowRect : DeviceGeofence := ⟨3, 1, true, none, none⟩

def c3rowPoly : DeviceGeofence := ⟨3, 2, false, none, none⟩

def c3rows : List DeviceGeofence := [c3rowRect, c3rowPoly]

/-- Fixture for C4: an environment with no devices at all. -/
def c4env : ProcEnv :=
  { devices := []
    geofences := []
    device_geofences := []
    gmaps_available := false
    geocode_result := none
    now := 0 }

def c4loc : LocationCreate :=
  { device_id := "ghost", latitude := 1, longitude := 2, timestamp := 42 }

/-- Fixture for C7: an active rectangle geofence containing the point, with
the stored state already inside, so the detected transition is Unchanged. -/
def c7geofence : Geofence :=
  { c1geofence with id := 3, name := "lot" }

def c7device : Device :=
  { id := 4, device_id := "dev-4", fcm_token := none, telegram_chat_id := none }

def c7ctx : EvalCtx :=
  { device_db_id := 4
    device := some c7device
    geofences := [c7geofence]
    latitude := 5
    longitude := 5
    now := 70 }

def c7row : DeviceGeofence := ⟨4, 3, true, some 1, none⟩

def c7st : EvalState := ⟨[c7row], [], []⟩

/-- Fixture for C8: a full process_location run whose location sample
carries timestamp 42 while the wall clock reads 99. -/
def c8device : Device :=
  { id := 5, device_id := "dev-5", fcm_token := none, telegram_chat_id := none }

def c8geofence : Geofence :=
  { c1geofence with id := 11, name := "yard" }

def c8env : ProcEnv :=
  { devices := [c8device]
    geofences := [c8geofence]
    device_geofences := [⟨5, 11, false, none, none⟩]
    gmaps_available := false
    geocode_result := none
    now := 99 }

def c8loc : LocationCreate :=
  { device_id := "dev-5", latitude := 5, longitude := 5, timestamp := 42 }

def c8ctx : EvalCtx :=
  { device_db_id := 5
    device := some c8device
    geofences := [c8geofence]
    latitude := 5
    longitude := 5
    now := 99 }

def c8row : DeviceGeofence := ⟨5, 11, false, none, some 7⟩

def c8st0 : EvalState := ⟨[c8row], [], []⟩

/-- State after the enter transition of the C8 fixture: last_entered_at is
the wall clock 99 and the prior last_exited_at 7 is preserved. -/
def c8st1 : EvalState :=
  ⟨[⟨5, 11, true, some 99, some 7⟩], [], [⟨"dev-5", 11, "enter", 5, 5⟩]⟩

/-- Fixture for C9: a geofence notifying on exit only, push enabled,
Telegram disabled, and a device holding a push token. -/
def c9device : Device :=
  { id := 6, device_id := "dev-6", fcm_token := some "tok-6", telegram_chat_id := none }

def c9geofence : Geofence :=
  { id := 12
    name := "dock"
    geofence_type := .rectangle
    center_latitude := none
    center_longitude := none
    radius_meters := none
    polygon_coordinates := none
    min_latitude := some 0
    max_latitude := some 10
    min_longitude := some 0
    max_longitude := some 10
    status := .active
    notify_on_enter := false
    notify_on_exit := true
    notification_message := none
    enable_sound := true
    enable_push := true
    enable_telegram := false }

def c9ctx : EvalCtx :=
  { device_db_id := 6
    device := some c9device
    geofences := [c9geofence]
    latitude := 20
    longitude := 20
    now := 80 }

/-- Stored state inside while the point (20, 20) is outside the rectangle,
producing an Exited transition. -/
def c9row : DeviceGeofence := ⟨6, 12, true, some 2, none⟩

def c9st0 : EvalState := ⟨[c9row], [], []⟩

/-- Result of the C9 exit iteration: one push intent. -/
def c9st1 : EvalState :=
  ⟨[⟨6, 12, false, some 2, some 80⟩],
    [{ device_id := "dev-6"
       notification_type := .push
       title := "Geofence: dock"
       message := "Device exited geofence dock"
       priority := .high
       enable_sound := true
       geofence_id := 12
       event_type := "geofence_exit"
       latitude := 20
       longitude := 20 }],
    [⟨"dev-6", 12, "exit", 20, 20⟩]⟩

/-- Enter-side C9 fixture: same geofence, point inside, stored state
outside; notify_on_enter is false so no intent may be produced. -/
def c9ctxIn : EvalCtx :=
  { c9ctx with latitude := 5, longitude := 5 }

def c9rowIn : DeviceGeofence := ⟨6, 12, false, some 2, none⟩

def c9st0in : EvalState := ⟨[c9rowIn], [], []⟩

def c9st1in : EvalState :=
  ⟨[⟨6, 12, true, some 80, none⟩], [], [⟨"dev-6", 12, "enter", 5, 5⟩]⟩

/-- Fixture for C10: a triangle, tested at one of its vertices. -/
def c10coords : List (ℚ × ℚ) := [(0, 0), (4, 0), (0, 4)]

def c10vs : List (ℚ × ℚ) := c10coords.map fun c => (c.2, c.1)

/-! ## Helper lemmas about the evaluation loop -/

/-- A row is settled when its stored is_inside already equals the value its
geofence computes at the current coordinate, whenever that geofence exists
and is active. Skipped rows are settled vacuously. -/
def settled (ctx : EvalCtx) (r : DeviceGeofence) : Prop :=
  ∀ g, read_by_id ctx.geofences r.geofence_id = some g →
    g.status.value = "active" →
    computeIsInside g ctx.latitude ctx.longitude = .ok r.is_inside

lemma step_of_settled (ctx : EvalCtx) (st : EvalState) (dg : DeviceGeofence)
    (h : settled ctx dg) : processDeviceGeofence ctx st dg = .ok st := by
  rcases hread : read_by_id ctx.geofences dg.geofence_id with _ | g
  · simp [processDeviceGeofence, hread]
  · by_cases hact : g.status.value = "active"
    · simp [processDeviceGeofence, hread, hact, h g hread hact]
    · simp [processDeviceGeofence, hread, hact]

lemma foldlM_of_settled (ctx : EvalCtx) :
    ∀ (l : List DeviceGeofence) (st : EvalState), (∀ dg ∈ l, settled ctx dg) →
      List.foldlM (processDeviceGeofence ctx) st l = .ok st := by
  intro l
  induction l with
  | nil => intro st _; rfl
  | cons dg l ih =>
    intro st h
    rw [List.foldlM_cons, step_of_settled ctx st dg (h dg (by simp))]
    exact ih st fun x hx => h x (by simp [hx])

lemma applyStateUpdate_device_id (r : DeviceGeofence) (i : Bool) (ea ex : Option ℕ) :
    (applyStateUpdate r i ea ex).device_id = r.device_id := rfl

lemma applyStateUpdate_geofence_id (r : DeviceGeofence) (i : Bool) (ea ex : Option ℕ) :
    (applyStateUpdate r i ea ex).geofence_id = r.geofence_id := rfl

lemma applyStateUpdate_is_inside (r : DeviceGeofence) (i : Bool) (ea ex : Option ℕ) :
    (applyStateUpdate r i ea ex).is_inside = i := rfl

lemma update_state_eq_map (rows : List DeviceGeofence) (dev gid : ℕ) (ins : Bool)
    (ea ex : Option ℕ) (r0 : DeviceGeofence) (h0 : r0 ∈ rows)
    (hdev : r0.device_id = dev) (hgid : r0.geofence_id = gid) :
    update_state rows dev gid ins ea ex =
      rows.map fun r =>
        if r.device_id == dev && r.geofence_id == gid
        then applyStateUpdate r ins ea ex else r := by
  unfold update_state
  rw [if_pos]
  exact List.any_eq_true.mpr ⟨r0, h0, by simp [hdev, hgid]⟩

lemma read_by_id_gid (gs : List Geofence) (gid : ℕ) (g : Geofence)
    (h : read_by_id gs gid = some g) : g.id = gid := by
  have := List.find?_some h
  simpa using this

/-- Case analysis of one successful loop iteration: either nothing happened
and the row was skipped or already settled, or a transition happened and
the rows were rewritten by update_state with the computed value. -/
lemma step_ok_cases (ctx : EvalCtx) (st st1 : EvalState) (dg : DeviceGeofence)
    (h : processDeviceGeofence ctx st dg = .ok st1) :
    (st1 = st ∧ settled ctx dg) ∨
    (∃ g b, read_by_id ctx.geofences dg.geofence_id = some g ∧
      g.status.value = "active" ∧
      computeIsInside g ctx.latitude ctx.longitude = .ok b ∧
      b ≠ dg.is_inside ∧ g.id = dg.geofence_id ∧
      st1.rows = update_state st.rows ctx.device_db_id g.id b
        (if b then some ctx.now else none) (if b then none else some ctx.now)) := by
  rcases hread : read_by_id ctx.geofences dg.geofence_id with _ | g
  · left
    have hstep : processDeviceGeofence ctx st dg = .ok st := by
      simp [processDeviceGeofence, hread]
    rw [hstep] at h
    refine ⟨by injection h with h; exact h.symm, ?_⟩
    intro g hg
    rw [hread] at hg
    cases hg
  · by_cases hact : g.status.value = "active"
    · rcases hcomp : computeIsInside g ctx.latitude ctx.longitude with e | b
      · exfalso
        have hstep : processDeviceGeofence ctx st dg = .error e := by
          simp [processDeviceGeofence, hread, hact, hcomp]
        rw [hstep] at h
        cases h
      · by_cases hbe : b = dg.is_inside
        · left
          have hstep : processDeviceGeofence ctx st dg = .ok st := by
            simp [processDeviceGeofence, hread, hact, hcomp, hbe]
          rw [hstep] at h
          refine ⟨by injection h with h; exact h.symm, ?_⟩
          intro g2 hg2 hact2
          rw [hread] at hg2
          injection hg2 with hg2
          subst hg2
          rw [hcomp, hbe]
        · right
          refine ⟨g, b, rfl, hact, hcomp, hbe, read_by_id_gid _ _ _ hread, ?_⟩
          cases b with
          | true =>
            have hstep : processDeviceGeofence ctx st dg = .ok
                { rows := update_state st.rows ctx.device_db_id g.id true (some ctx.now) none
                  notifs := st.notifs ++
                    (if g.notify_on_enter then
                      send_geofence_notification ctx.device g "geofence_enter"
                        ctx.latitude ctx.longitude
                    else [])
                  events := st.events ++
                    (match ctx.device with
                      | some d => [⟨d.device_id, g.id, "enter", ctx.latitude, ctx.longitude⟩]
                      | none => []) } := by
              simp [processDeviceGeofence, hread, hact, hcomp, Ne.symm hbe]
            rw [hstep] at h
            injection h with h
            rw [← h]
            simp
          | false =>
            have hstep : processDeviceGeofence ctx st dg = .ok
                { rows := update_state st.rows ctx.device_db_id g.id false none (some ctx.now)
                  notifs := st.notifs ++
                    (if g.notify_on_exit then
                      send_geofence_notification ctx.device g "geofence_exit"
                        ctx.latitude ctx.longitude
                    else [])
                  events := st.events ++
                    (match ctx.device with
                      | some d => [⟨d.device_id, g.id, "exit", ctx.latitude, ctx.longitude⟩]
                      | none => []) } := by
              simp [processDeviceGeofence, hread, hact, hcomp, Ne.symm hbe]
            rw [hstep] at h
            injection h with h
            rw [← h]
            simp
    · left
      have hstep : processDeviceGeofence ctx st dg = .ok st := by
        simp [processDeviceGeofence, hread, hact]
      rw [hstep] at h
      refine ⟨by injection h with h; exact h.symm, ?_⟩
      intro g2 hg2 hact2
      rw [hread] at hg2
      injection hg2 with hg2
      subst hg2
      exact absurd hact2 hact

/-- Invariant of the evaluation fold: when every database row belongs to
the evaluated device, is either already settled or still has a snapshot
entry of the same geofence and stored value pending, and every pending
snapshot entry still has a database row of its geofence, then a successful
fold leaves every database row settled. -/
lemma fold_inv (ctx : EvalCtx) :
    ∀ (l : List DeviceGeofence) (st st1 : EvalState),
    (∀ r ∈ st.rows, r.device_id = ctx.device_db_id) →
    (∀ r ∈ st.rows, settled ctx r ∨
      ∃ dg ∈ l, dg.geofence_id = r.geofence_id ∧ dg.is_inside = r.is_inside) →
    (∀ dg ∈ l, ∃ r ∈ st.rows, r.geofence_id = dg.geofence_id) →
    List.foldlM (processDeviceGeofence ctx) st l = .ok st1 →
    ∀ r ∈ st1.rows, settled ctx r := by
  intro l
  induction l with
  | nil =>
    intro st st1 hdev hset hkeys hfold r hr
    have hst : st = st1 := by
      rw [List.foldlM_nil] at hfold
      injection hfold
    subst hst
    rcases hset r hr with hs | ⟨dg, hdg, _⟩
    · exact hs
    · cases hdg
  | cons dg l ih =>
    intro st st1 hdev hset hkeys hfold
    rw [List.foldlM_cons] at hfold
    rcases hstep : processDeviceGeofence ctx st dg with e | stm
    · rw [hstep] at hfold
      cases hfold
    · rw [hstep] at hfold
      replace hfold : List.foldlM (processDeviceGeofence ctx) stm l = .ok st1 := hfold
      rcases step_ok_cases ctx st stm dg hstep with ⟨hstm, hsdg⟩ | hW
      · subst hstm
        refine ih stm st1 hdev ?_ ?_ hfold
        · intro r hr
          rcases hset r hr with hs | ⟨dgw, hdgw, hw1, hw2⟩
          · exact Or.inl hs
          · rcases List.mem_cons.mp hdgw with rfl | hdgl
            · left
              intro g hg hact
              rw [← hw1] at hg
              rw [hsdg g hg hact, hw2]
            · exact Or.inr ⟨dgw, hdgl, hw1, hw2⟩
        · intro dg2 hdg2
          exact hkeys dg2 (List.mem_cons_of_mem _ hdg2)
      · rcases hW with ⟨g, b, hread, hact, hcomp, hbne, hgid, hrows⟩
        obtain ⟨r0, hr0, hr0g⟩ := hkeys dg (List.mem_cons_self _ _)
        have hmap := update_state_eq_map st.rows ctx.device_db_id g.id b
          (if b then some ctx.now else none) (if b then none else some ctx.now)
          r0 hr0 (hdev r0 hr0) (by rw [hr0g, hgid])
        rw [hmap] at hrows
        have hdev1 : ∀ r ∈ stm.rows, r.device_id = ctx.device_db_id := by
          intro r hr
          rw [hrows] at hr
          obtain ⟨r1, hr1, hr1e⟩ := List.mem_map.mp hr
          by_cases hk : (r1.device_id == ctx.device_db_id && r1.geofence_id == g.id) = true
          · rw [if_pos hk] at hr1e
            rw [← hr1e, applyStateUpdate_device_id]
            exact hdev r1 hr1
          · rw [if_neg hk] at hr1e
            rw [← hr1e]
            exact hdev r1 hr1
        refine ih stm st1 hdev1 ?_ ?_ hfold
        · intro r hr
          rw [hrows] at hr
          obtain ⟨r1, hr1, hr1e⟩ := List.mem_map.mp hr
          by_cases hk : (r1.device_id == ctx.device_db_id && r1.geofence_id == g.id) = true
          · rw [if_pos hk] at hr1e
            left
            intro g2 hg2 hact2
            have hk2 : r1.device_id = ctx.device_db_id ∧ r1.geofence_id = g.id := by
              simpa using hk
            have hrg : r.geofence_id = g.id := by
              rw [← hr1e, applyStateUpdate_geofence_id]
              exact hk2.2
            rw [hrg, hgid] at hg2
            rw [hread] at hg2
            injection hg2 with hg2
            subst hg2
            rw [hcomp]
            rw [← hr1e, applyStateUpdate_is_inside]
          · rw [if_neg hk] at hr1e
            subst hr1e
            rcases hset r1 hr1 with hs | ⟨dgw, hdgw, hw1, hw2⟩
            · exact Or.inl hs
            · rcases List.mem_cons.mp hdgw with rfl | hdgl
              · exfalso
                apply hk
                simp only [Bool.and_eq_true, beq_iff_eq]
                exact ⟨hdev r1 hr1, by rw [← hw1, ← hgid]⟩
              · exact Or.inr ⟨dgw, hdgl, hw1, hw2⟩
        · intro dg2 hdg2
          obtain ⟨r1, hr1, hr1g⟩ := hkeys dg2 (List.mem_cons_of_mem _ hdg2)
          by_cases hk : (r1.device_id == ctx.device_db_id && r1.geofence_id == g.id) = true
          · refine ⟨applyStateUpdate r1 b (if b then some ctx.now else none)
              (if b then none else some ctx.now), ?_, ?_⟩
            · rw [hrows]
              refine List.mem_map.mpr ⟨r1, hr1, ?_⟩
              rw [if_pos hk]
            · rw [applyStateUpdate_geofence_id]
              exact hr1g
          · refine ⟨r1, ?_, hr1g⟩
            rw [hrows]
            refine List.mem_map.mpr ⟨r1, hr1, ?_⟩
            rw [if_neg hk]

/-! ## Claim C1: idempotence of evaluation -/

/-- C1: for every device, geofence set, coordinate and timestamp, running
check_geofences a second time against a state already reflecting the first
run detects no transition for any geofence (the computed is_inside of every
active geofence equals the stored previous state), performs zero state
mutations, and produces zero notification intents and zero integration
events on the second run. The hypothesis hdev records that the snapshot
rows come from get_by_device_id, so they all carry the evaluated device's
id; the hypothesis h1 records that the first run completed. -/
theorem claim1_idempotence (ctx : EvalCtx) (rows : List DeviceGeofence) (st1 : EvalState)
    (hdev : ∀ r ∈ rows, r.device_id = ctx.device_db_id)
    (h1 : check_geofences ctx rows = .ok st1) :
    (∀ r ∈ st1.rows, settled ctx r) ∧
    check_geofences ctx st1.rows = .ok ⟨st1.rows, [], []⟩ := by
  have hsettled : ∀ r ∈ st1.rows, settled ctx r := by
    refine fold_inv ctx rows ⟨rows, [], []⟩ st1 hdev ?_ ?_ h1
    · intro r hr
      exact Or.inr ⟨r, hr, rfl, rfl⟩
    · intro dg hdg
      exact ⟨dg, hdg, rfl⟩
  exact ⟨hsettled, foldlM_of_settled ctx st1.rows ⟨st1.rows, [], []⟩ hsettled⟩

/-- Witness for C1: the first evaluation enters the rectangle; the theorem
then shows the immediate second evaluation leaves the state unchanged and
emits nothing. -/
theorem claim1_idempotence_witness :
    check_geofences c1ctx c1rows = .ok c1st ∧
    check_geofences c1ctx c1st.rows = .ok ⟨c1st.rows, [], []⟩ := by
  have h1 : check_geofences c1ctx c1rows = .ok c1st := by rfl
  exact ⟨h1, (claim1_idempotence c1ctx c1rows c1st (by decide) h1).2⟩

/-! ## Claim C2: missing shape parameters -/

/-- C2 counterexample: an active polygon geofence with an empty coordinate
list is evaluated without any error: the run succeeds, classifies the
device as not-inside (staging an Exited transition away from the stored
inside state), and records no InvalidShape error anywhere. -/
theorem claim2_counterexample : check_geofences c2ctx c2rows = .ok c2st := by rfl

/-- C2 amended: a polygon geofence whose polygon_coordinates is None or the
empty list is silently evaluated as not-inside with no error, while a
circle geofence missing its center or radius raises an uncaught TypeError
(from float(None)) that aborts the whole evaluation call; neither path
produces a per-geofence InvalidShape error. -/
theorem claim2_missing_shape_amended :
    (∀ (g : Geofence) (lat lon : ℚ), g.geofence_type = .polygon →
      (g.polygon_coordinates = none ∨ g.polygon_coordinates = some []) →
      computeIsInside g lat lon = .ok false) ∧
    (∀ (g : Geofence) (lat lon : ℚ), g.geofence_type = .circle →
      (g.center_latitude = none ∨ g.center_longitude = none ∨ g.radius_meters = none) →
      computeIsInside g lat lon = .error .typeError) := by
  constructor
  · intro g lat lon ht hc
    rcases hc with hc | hc <;> simp [computeIsInside, ht, hc]
  · intro g lat lon ht hc
    rcases h1 : g.center_latitude with _ | a
    all_goals rcases h2 : g.center_longitude with _ | b
    all_goals rcases h3 : g.radius_meters with _ | c
    all_goals simp [computeIsInside, ht, h1, h2, h3]
    all_goals simp [h1, h2, h3] at hc

/-- Witness for the amended C2. -/
theorem claim2_missing_shape_witness :
    computeIsInside c2geofence 1 1 = .ok false ∧
    computeIsInside c2circle 1 1 = .error .typeError := by
  exact ⟨claim2_missing_shape_amended.1 c2geofence 1 1 rfl (Or.inr rfl),
    claim2_missing_shape_amended.2 c2circle 1 1 rfl (Or.inl rfl)⟩

/-! ## Claim C3: partial-failure isolation -/

/-- C3 counterexample: with a valid rectangle geofence followed by a
two-vertex polygon geofence, the whole check_geofences call aborts with the
shapely ValueError; no soft error is recorded and no result is returned for
the valid geofence either. -/
theorem claim3_counterexample : check_geofences c3ctx c3rows = .error .valueError := by rfl

/-- C3 amended: a malformed polygon geofence (a non-empty coordinate list
with fewer than three vertices) raises an uncaught ValueError that aborts
the entire evaluation call; iterations before it run normally, iterations
after it never run, and no per-geofence soft error exists. -/
theorem claim3_no_isolation_amended (ctx : EvalCtx) (pre post : List DeviceGeofence)
    (dg : DeviceGeofence) (g : Geofence) (stm : EvalState) (coords : List (ℚ × ℚ))
    (hread : read_by_id ctx.geofences dg.geofence_id = some g)
    (hact : g.status.value = "active")
    (ht : g.geofence_type = .polygon)
    (hc : g.polygon_coordinates = some coords)
    (hne : coords ≠ [])
    (hlen : coords.length < 3)
    (hpre : List.foldlM (processDeviceGeofence ctx)
      ⟨pre ++ dg :: post, [], []⟩ pre = .ok stm) :
    check_geofences ctx (pre ++ dg :: post) = .error .valueError := by
  obtain ⟨a, t, rfl⟩ := List.exists_cons_of_ne_nil hne
  have hcomp : computeIsInside g ctx.latitude ctx.longitude = .error .valueError := by
    simp only [computeIsInside, ht, hc]
    rw [if_neg (by simp)]
    unfold point_in_polygon
    rw [if_neg (by simp), if_pos hlen]
  have hstep : processDeviceGeofence ctx stm dg = .error .valueError := by
    simp [processDeviceGeofence, hread, hact, hcomp]
  unfold check_geofences
  rw [List.foldlM_append, hpre]
  show List.foldlM (processDeviceGeofence ctx) stm (dg :: post) = .error .valueError
  rw [List.foldlM_cons, hstep]
  rfl

/-- Witness for the amended C3. -/
theorem claim3_no_isolation_witness :
    check_geofences c3ctx ([c3rowRect] ++ c3rowPoly :: []) = .error .valueError := by
  exact claim3_no_isolation_amended c3ctx [c3rowRect] [] c3rowPoly c3poly2
    ⟨[c3rowRect] ++ c3rowPoly :: [], [], []⟩ [(0, 0), (1, 1)]
    rfl rfl rfl rfl (by decide) (by decide) (by rfl)

/-! ## Claim C4: DeviceNotFound handling -/

/-- C4 counterexample: a process_location call whose deviceId resolves to
no device returns an ordinary success carrying no error indication and no
effects, instead of failing with a surfaced DeviceNotFound error. -/
theorem claim4_counterexample : process_location c4env c4loc = .ok ⟨[], [], [], none⟩ := by rfl

/-- C4 amended: when the deviceId resolves to no device, process_location
logs a warning and returns silently with a success result: no error is
surfaced to the caller, and no last_seen update, location save, event
publication or geofence evaluation happens. -/
theorem claim4_silent_return_amended (env : ProcEnv) (loc : LocationCreate)
    (h : read_by_device_id env.devices loc.device_id = none) :
    process_location env loc = .ok ⟨[], [], [], none⟩ := by
  unfold process_location
  rw [h]

/-- Witness for the amended C4. -/
theorem claim4_silent_return_witness :
    process_location c4env c4loc = .ok ⟨[], [], [], none⟩ :=
  claim4_silent_return_amended c4env c4loc rfl

/-! ## Claim C5: circle containment -/

lemma haversine_eq_spec (lat1 lon1 lat2 lon2 : ℚ) :
    haversine_distance lat1 lon1 lat2 lon2 = specGreatCircleDistance lat1 lon1 lat2 lon2 := by
  have h1 : radians ((lat2 - lat1 : ℚ) : ℝ) = radians (lat2 : ℝ) - radians (lat1 : ℝ) := by
    unfold radians
    push_cast
    ring
  have h2 : radians ((lon2 - lon1 : ℚ) : ℝ) = radians (lon2 : ℝ) - radians (lon1 : ℝ) := by
    unfold radians
    push_cast
    ring
  simp only [haversine_distance, specGreatCircleDistance, h1, h2]
  ring

/-- C5: for every coordinate and circle parameters, point_in_circle is true
exactly when the haversine great-circle distance (Earth radius 6,371,000 m)
from the point to the center is at most the radius; a point at distance
exactly the radius is inside, and a point at distance strictly greater than
the radius is outside. -/
theorem claim5_circle_containment (lat lon clat clon r : ℚ) :
    (point_in_circle lat lon clat clon r = true ↔
      specGreatCircleDistance lat lon clat clon ≤ (r : ℝ)) ∧
    (specGreatCircleDistance lat lon clat clon = (r : ℝ) →
      point_in_circle lat lon clat clon r = true) ∧
    ((r : ℝ) < specGreatCircleDistance lat lon clat clon →
      point_in_circle lat lon clat clon r = false) := by
  have hiff : point_in_circle lat lon clat clon r = true ↔
      specGreatCircleDistance lat lon clat clon ≤ (r : ℝ) := by
    simp [point_in_circle, haversine_eq_spec]
  refine ⟨hiff, fun he => hiff.mpr (le_of_eq he), fun hlt => ?_⟩
  simp [point_in_circle, haversine_eq_spec, not_le, hlt]

/-- Witness for C5: a point at distance exactly the radius (both zero) is
inside; a point at distance strictly above the radius is outside. -/
theorem claim5_circle_witness :
    point_in_circle 0 0 0 0 0 = true ∧ point_in_circle 0 0 0 0 (-1) = false := by
  constructor
  · exact (claim5_circle_containment 0 0 0 0 0).2.1
      (by simp [specGreatCircleDistance, radians])
  · refine (claim5_circle_containment 0 0 0 0 (-1)).2.2 ?_
    have hz : specGreatCircleDistance 0 0 0 0 = (0 : ℝ) := by
      simp [specGreatCircleDistance, radians]
    rw [hz]
    norm_num

/-! ## Claim C6: rectangle containment -/

/-- C6: point_in_rectangle is true exactly when min_lat ≤ lat ≤ max_lat and
min_lon ≤ lon ≤ max_lon, all bounds inclusive; in particular a point whose
latitude equals min_lat, with longitude within bounds, is inside. -/
theorem claim6_rectangle_inclusive (lat lon min_lat max_lat min_lon max_lon : ℚ) :
    (point_in_rectangle lat lon min_lat max_lat min_lon max_lon = true ↔
      (min_lat ≤ lat ∧ lat ≤ max_lat ∧ min_lon ≤ lon ∧ lon ≤ max_lon)) ∧
    (min_lat ≤ max_lat → min_lon ≤ lon → lon ≤ max_lon →
      point_in_rectangle min_lat lon min_lat max_lat min_lon max_lon = true) := by
  constructor
  · simp [point_in_rectangle]
  · intro h1 h2 h3
    simp [point_in_rectangle, le_refl, h1, h2, h3]

/-- Witness for C6: a point exactly on the min_lat boundary is inside. -/
theorem claim6_rectangle_witness : point_in_rectangle 0 5 0 10 0 10 = true :=
  (claim6_rectangle_inclusive 0 5 0 10 0 10).2 (by norm_num) (by norm_num) (by norm_num)

/-! ## Claim C7: transition detection -/

/-- C7: for every (previous, current) pair the detected transition is
Entered exactly when previous is false and current true, Exited exactly
when previous is true and current false, and Unchanged exactly when they
agree; and whenever the computed containment makes the transition
Unchanged, the loop iteration performs no state mutation, produces no
notification intents and publishes no events: the evaluation state is
returned untouched. -/
theorem claim7_transition_detection :
    (∀ p c : Bool,
      (detectTransition p c = .entered ↔ (p = false ∧ c = true)) ∧
      (detectTransition p c = .exited ↔ (p = true ∧ c = false)) ∧
      (detectTransition p c = .unchanged ↔ p = c)) ∧
    (∀ (ctx : EvalCtx) (st : EvalState) (dg : DeviceGeofence) (g : Geofence) (b : Bool),
      read_by_id ctx.geofences dg.geofence_id = some g →
      g.status.value = "active" →
      computeIsInside g ctx.latitude ctx.longitude = .ok b →
      detectTransition dg.is_inside b = .unchanged →
      processDeviceGeofence ctx st dg = .ok st) := by
  constructor
  · intro p c
    refine ⟨?_, ?_, ?_⟩ <;> cases p <;> cases c <;> simp [detectTransition]
  · intro ctx st dg g b hread hact hcomp hun
    have hbe : b = dg.is_inside := by
      cases hp : dg.is_inside <;> cases hb : b <;>
        first
        | rfl
        | (exfalso; rw [hp, hb] at hun; exact absurd hun (by simp [detectTransition]))
    apply step_of_settled
    intro g2 hg2 hact2
    rw [hread] at hg2
    injection hg2 with hg2
    subst hg2
    rw [hcomp, hbe]

/-- Witness for C7: with the stored state already inside and the point
inside the rectangle, the transition is Unchanged and the iteration leaves
the state untouched. -/
theorem claim7_transition_witness :
    detectTransition false true = .entered ∧
    processDeviceGeofence c7ctx c7st c7row = .ok c7st := by
  constructor
  · exact (claim7_transition_detection.1 false true).1.mpr ⟨rfl, rfl⟩
  · exact claim7_transition_detection.2 c7ctx c7st c7row c7geofence true
      rfl rfl (by rfl) rfl

/-! ## Claim C8: transition timestamps -/

/-- C8 counterexample: a process_location run whose location sample carries
timestamp 42 while the wall clock reads 99 stages last_entered_at = 99, the
processing-time clock value, not the sample's occurredAt timestamp 42. The
evaluation loop never even receives the sample's timestamp. -/
theorem claim8_counterexample :
    process_location c8env c8loc = .ok
      { last_seen_updates := ["dev-5"]
        saved_locations := [⟨5, 5, 5, 42, none⟩]
        location_events := [⟨"dev-5", 5, 5, 42⟩]
        geofence_eval := some
          { rows := [⟨5, 11, true, some 99, none⟩]
            notifs := []
            events := [⟨"dev-5", 11, "enter", 5, 5⟩] } } ∧
    c8loc.timestamp = 42 ∧ (99 : ℕ) ≠ 42 := by
  exact ⟨by rfl, rfl, by decide⟩

/-- C8 amended: an Entered transition stages is_inside = true and
last_entered_at = the current wall-clock time (datetime.now at processing),
leaving last_exited_at unchanged; an Exited transition stages is_inside =
false and last_exited_at = the wall-clock time, leaving last_entered_at
unchanged; the location sample's occurredAt timestamp is not used. -/
theorem claim8_timestamps_amended (ctx : EvalCtx) (st st1 : EvalState)
    (dg r : DeviceGeofence) (g : Geofence) (b : Bool)
    (hread : read_by_id ctx.geofences dg.geofence_id = some g)
    (hact : g.status.value = "active")
    (hcomp : computeIsInside g ctx.latitude ctx.longitude = .ok b)
    (hbne : b ≠ dg.is_inside)
    (hstep : processDeviceGeofence ctx st dg = .ok st1)
    (hr : r ∈ st.rows) (hrdev : r.device_id = ctx.device_db_id)
    (hrg : r.geofence_id = g.id) :
    (b = true → { r with is_inside := true, last_entered_at := some ctx.now } ∈ st1.rows) ∧
    (b = false → { r with is_inside := false, last_exited_at := some ctx.now } ∈ st1.rows) := by
  rcases step_ok_cases ctx st st1 dg hstep with ⟨_, hs⟩ |
    ⟨g2, b2, hread2, hact2, hcomp2, hbne2, _, hrows2⟩
  · exfalso
    have hsame := hs g hread hact
    rw [hcomp] at hsame
    injection hsame with hsame
    exact hbne hsame
  · rw [hread] at hread2
    injection hread2 with hread2
    subst hread2
    rw [hcomp] at hcomp2
    injection hcomp2 with hcomp2
    subst hcomp2
    rw [hrows2, update_state_eq_map st.rows ctx.device_db_id g.id b _ _ r hr hrdev hrg]
    constructor <;> intro hb <;> subst hb
    · refine List.mem_map.mpr ⟨r, hr, ?_⟩
      rw [if_pos (by simp [hrdev, hrg])]
      rfl
    · refine List.mem_map.mpr ⟨r, hr, ?_⟩
      rw [if_pos (by simp [hrdev, hrg])]
      rfl

/-- Witness for the amended C8: the enter transition writes
last_entered_at = 99 (the clock) and preserves last_exited_at = 7. -/
theorem claim8_timestamps_witness :
    processDeviceGeofence c8ctx c8st0 c8row = .ok c8st1 ∧
    ({ c8row with is_inside := true, last_entered_at := some 99 } : DeviceGeofence) ∈
      c8st1.rows := by
  have hstep : processDeviceGeofence c8ctx c8st0 c8row = .ok c8st1 := by rfl
  exact ⟨hstep,
    (claim8_timestamps_amended c8ctx c8st0 c8st1 c8row c8row c8geofence true
      rfl rfl (by rfl) (by decide) hstep (by decide) rfl rfl).1 rfl⟩

/-! ## Claim C9: notification gating and channel fan-out -/

/-- C9: notification intents are gated by notify_on_enter / notify_on_exit;
when built, every intent carries the title "Geofence: " + name, priority
High and the custom message (or the generated entered/exited sentence); a
Push intent is emitted exactly when enable_push holds and the device has a
push token, a Telegram intent exactly when enable_telegram holds and the
device has a telegram chat id; a geofence with notify_on_enter = false
yields zero intents on an Entered transition, and with notify_on_exit =
true, enable_push = true, enable_telegram = false and a push-token device
an Exited transition yields exactly one Push intent. -/
theorem claim9_notification_gating :
    (∀ (d : Device) (g : Geofence) (et : String) (lat lon : ℚ),
      (List.countP (fun n => n.notification_type == NotificationChannel.push)
          (send_geofence_notification (some d) g et lat lon) =
        if g.enable_push && truthyStr d.fcm_token then 1 else 0) ∧
      (List.countP (fun n => n.notification_type == NotificationChannel.telegram)
          (send_geofence_notification (some d) g et lat lon) =
        if g.enable_telegram && truthyStr d.telegram_chat_id then 1 else 0) ∧
      (∀ n ∈ send_geofence_notification (some d) g et lat lon,
        n.title = "Geofence: " ++ g.name ∧ n.priority = .high ∧
        n.message = pyOrStr g.notification_message
          ("Device " ++ (if et == "geofence_enter" then "entered" else "exited") ++
            " geofence " ++ g.name))) ∧
    (∀ (ctx : EvalCtx) (st st1 : EvalState) (dg : DeviceGeofence) (g : Geofence),
      read_by_id ctx.geofences dg.geofence_id = some g →
      g.status.value = "active" →
      computeIsInside g ctx.latitude ctx.longitude = .ok true →
      dg.is_inside = false →
      g.notify_on_enter = false →
      processDeviceGeofence ctx st dg = .ok st1 →
      st1.notifs = st.notifs) ∧
    (∀ (ctx : EvalCtx) (st st1 : EvalState) (dg : DeviceGeofence) (g : Geofence) (d : Device),
      read_by_id ctx.geofences dg.geofence_id = some g →
      g.status.value = "active" →
      computeIsInside g ctx.latitude ctx.longitude = .ok false →
      dg.is_inside = true →
      g.notify_on_exit = true →
      g.enable_push = true →
      g.enable_telegram = false →
      ctx.device = some d →
      truthyStr d.fcm_token = true →
      processDeviceGeofence ctx st dg = .ok st1 →
      st1.notifs = st.notifs ++
        [{ device_id := d.device_id
           notification_type := .push
           title := "Geofence: " ++ g.name
           message := pyOrStr g.notification_message ("Device exited geofence " ++ g.name)
           priority := .high
           enable_sound := g.enable_sound
           geofence_id := g.id
           event_type := "geofence_exit"
           latitude := ctx.latitude
           longitude := ctx.longitude }]) := by
  refine ⟨?_, ?_, ?_⟩
  · intro d g et lat lon
    by_cases hp : (g.enable_push && truthyStr d.fcm_token) = true <;>
      by_cases htg : (g.enable_telegram && truthyStr d.telegram_chat_id) = true <;>
      refine ⟨?_, ?_, ?_⟩ <;>
      simp [send_geofence_notification, hp, htg]
  · intro ctx st st1 dg g hread hact hcomp hprev hflag hstep
    have hv : processDeviceGeofence ctx st dg = .ok
        { rows := update_state st.rows ctx.device_db_id g.id true (some ctx.now) none
          notifs := st.notifs
          events := st.events ++
            (match ctx.device with
              | some d => [⟨d.device_id, g.id, "enter", ctx.latitude, ctx.longitude⟩]
              | none => []) } := by
      simp [processDeviceGeofence, hread, hact, hcomp, hprev, hflag]
    rw [hv] at hstep
    injection hstep with h
    rw [← h]
  · intro ctx st st1 dg g d hread hact hcomp hprev hflag hpush htel hdev htok hstep
    have hv : processDeviceGeofence ctx st dg = .ok
        { rows := update_state st.rows ctx.device_db_id g.id false none (some ctx.now)
          notifs := st.notifs ++
            [{ device_id := d.device_id
               notification_type := .push
               title := "Geofence: " ++ g.name
               message := pyOrStr g.notification_message ("Device exited geofence " ++ g.name)
               priority := .high
               enable_sound := g.enable_sound
               geofence_id := g.id
               event_type := "geofence_exit"
               latitude := ctx.latitude
               longitude := ctx.longitude }]
          events := st.events ++
            [⟨d.device_id, g.id, "exit", ctx.latitude, ctx.longitude⟩] } := by
      simp [processDeviceGeofence, hread, hact, hcomp, hprev, hflag, hdev,
        send_geofence_notification, hpush, htel, htok, pyOrStr]
    rw [hv] at hstep
    injection hstep with h
    rw [← h]

/-- Witness for C9: on the fixture, the Entered transition (with
notify_on_enter false) produces zero intents and the Exited transition
(push enabled, push token present, Telegram disabled) produces exactly one
Push intent with the rendered title, generated message and High priority. -/
theorem claim9_notification_witness :
    processDeviceGeofence c9ctxIn c9st0in c9rowIn = .ok c9st1in ∧
    c9st1in.notifs = c9st0in.notifs ∧
    processDeviceGeofence c9ctx c9st0 c9row = .ok c9st1 ∧
    c9st1.notifs = c9st0.notifs ++
      [{ device_id := "dev-6"
         notification_type := .push
         title := "Geofence: dock"
         message := "Device exited geofence dock"
         priority := .high
         enable_sound := true
         geofence_id := 12
         event_type := "geofence_exit"
         latitude := 20
         longitude := 20 }] := by
  have hstepIn : processDeviceGeofence c9ctxIn c9st0in c9rowIn = .ok c9st1in := by rfl
  have hstep : processDeviceGeofence c9ctx c9st0 c9row = .ok c9st1 := by rfl
  refine ⟨hstepIn, ?_, hstep, ?_⟩
  · exact claim9_notification_gating.2.1 c9ctxIn c9st0in c9st1in c9rowIn c9geofence
      rfl rfl (by rfl) rfl rfl hstepIn
  · exact claim9_notification_gating.2.2 c9ctx c9st0 c9st1 c9row c9geofence c9device
      rfl rfl (by rfl) rfl rfl rfl rfl rfl rfl hstep

/-! ## Claim C10: polygon boundary exclusion -/

lemma onSegment_left (a b : ℚ × ℚ) : onSegment a b a = true := by
  simp only [onSegment, decide_eq_true_eq]
  refine ⟨by unfold cross; ring, min_le_left _ _, le_max_left _ _,
    min_le_left _ _, le_max_left _ _⟩

lemma vertex_on_boundary (vs : List (ℚ × ℚ)) (p : ℚ × ℚ) (hp : p ∈ vs) :
    onBoundary vs p = true := by
  have hlen : vs.length ≤ (vs.rotate 1).length := by rw [List.length_rotate]
  have hmap : (vs.zip (vs.rotate 1)).map Prod.fst = vs := List.map_fst_zip _ _ hlen
  rw [← hmap] at hp
  obtain ⟨e, he, hefst⟩ := List.mem_map.mp hp
  unfold onBoundary polygonEdges
  refine List.any_eq_true.mpr ⟨e, he, ?_⟩
  rw [← hefst]
  exact onSegment_left e.1 e.2

/-- C10: a coordinate on the boundary of a polygon geofence's ring
(vertices included) is classified as outside, because the modelled shapely
containment is strict interior membership, which excludes the boundary. -/
theorem claim10_polygon_boundary :
    (∀ (lat lon : ℚ) (coords : List (ℚ × ℚ)), 3 ≤ coords.length →
      onBoundary (coords.map fun c => (c.2, c.1)) (lon, lat) = true →
      point_in_polygon lat lon coords = .ok false) ∧
    (∀ (vs : List (ℚ × ℚ)) (p : ℚ × ℚ), p ∈ vs → onBoundary vs p = true) := by
  constructor
  · intro lat lon coords hlen hb
    unfold point_in_polygon
    rw [if_neg (by omega), if_neg (by omega)]
    unfold shapelyContains
    rw [hb]
    rfl
  · exact fun vs p hp => vertex_on_boundary vs p hp

/-- Witness for C10: the vertex (0, 0) of the fixture triangle lies on the
boundary and is classified outside. -/
theorem claim10_polygon_witness :
    point_in_polygon 0 0 c10coords = .ok false ∧ onBoundary c10vs (0, 0) = true := by
  have hb : onBoundary c10vs (0, 0) = true :=
    claim10_polygon_boundary.2 c10vs (0, 0) (by decide)
  exact ⟨claim10_polygon_boundary.1 0 0 c10coords (by decide) hb, hb⟩

end GeoPulse
